import Mathlib

/-!
# Baseball-Simulator: embedding of the at-bat and game logic

Shallow embedding of the two simulator implementations in this repository:

* `baseball_sim.py` — classes `Player`, `Team`, `Game`, `Simulator`; bases are a
  plain Python list, the walk branch of `Game.handle_at_bat` dispatches on the
  string `'BB'`, the `Game.__init__` defaults `bases=[0,0,0]`, `score=[0,0]`,
  `current_player=[0,0]` are mutable default arguments shared by every `Game`
  constructed with defaults.
* `baseball_sim_with_scrape.py` — same class names; bases are a numpy array,
  the walk branch dispatches on `'WALK'`, `hitter` truncates with `[:4]` before
  summing runs, `__init__` allocates fresh containers, and the 9th-inning
  termination test compares the scores with `!=`.

Python lists become `List Nat` (a base slot holds the number of runners on it,
normally 0 or 1), outcome strings stay `String`, the random draw of
`Player.at_bat` is factored out: the step functions take the drawn outcome as
an argument, and the batch layer below draws it from a seed-determined stream
of uniform rationals, mirroring a seeded `np.random.choice`.
-/

/-- One iteration of the force-advance loop in `Game.walker`
(`for i in range(3): if self.bases[i] == 2: self.bases[i] -= 1;
self.bases[i+1] += 1`): if slot `i` holds two runners, move one to slot
`i + 1`. -/
def forceStep (b : List Nat) (i : Nat) : List Nat :=
  if b.getD i 0 = 2 then
    let b := b.set i (b.getD i 0 - 1)
    b.set (i + 1) (b.getD (i + 1) 0 + 1)
  else b

/-- `Game.walker` of `baseball_sim.py` (lines 77-86), bases/runs part:
append a slot (`self.bases.append(0)`), put the batter on first
(`self.bases[0] += 1`), run the force-advance loop, score
`runs = self.bases[-1]` and keep `self.bases[:3]`. -/
def walker (bases : List Nat) : List Nat × Nat :=
  let b := bases ++ [0]
  let b := b.set 0 (b.getD 0 0 + 1)
  let b := forceStep (forceStep (forceStep b 0) 1) 2
  (b.take 3, b.getLastD 0)

/-- `Game.hitter` of `baseball_sim.py` (lines 88-99): prepend `[1, 0]` for a
single, `[0, 1]` for a double, `[0, 0, 1]` for a triple, `[0, 0, 0, 1]` for a
home run (an unrecognized string prepends nothing), then score
`runs = sum(self.bases[3:])` and keep `self.bases[:3]`. -/
def hitter (hit_type : String) (bases : List Nat) : List Nat × Nat :=
  let b :=
    if hit_type = "1B" then [1, 0] ++ bases
    else if hit_type = "2B" then [0, 1] ++ bases
    else if hit_type = "3B" then [0, 0, 1] ++ bases
    else if hit_type = "HR" then [0, 0, 0, 1] ++ bases
    else bases
  (b.take 3, (b.drop 3).sum)

/-- `Game.walker` of `baseball_sim_with_scrape.py` (lines 93-102): the same
algorithm as `walker`, written on a numpy array (`np.append`, element
assignments, `self.bases[-1]`, `self.bases[:3]`). -/
def walkerWS (bases : List Nat) : List Nat × Nat :=
  let b := bases ++ [0]
  let b := b.set 0 (b.getD 0 0 + 1)
  let b := forceStep (forceStep (forceStep b 0) 1) 2
  (b.take 3, b.getLastD 0)

/-- `Game.hitter` of `baseball_sim_with_scrape.py` (lines 104-115):
`np.insert(self.bases, 0, ...)[:4]` prepends and then truncates to four slots
BEFORE `runs = self.bases[3:].sum()` is taken, so slots pushed past the fourth
position are discarded, not scored. -/
def hitterWS (hit_type : String) (bases : List Nat) : List Nat × Nat :=
  let b :=
    if hit_type = "1B" then ([1] ++ bases).take 4
    else if hit_type = "2B" then ([0, 1] ++ bases).take 4
    else if hit_type = "3B" then ([0, 0, 1] ++ bases).take 4
    else if hit_type = "HR" then ([0, 0, 0, 1] ++ bases).take 4
    else bases
  (b.take 3, (b.drop 3).sum)

/-- The mutable per-game state of `Game` (fields of `Game.__init__` in both
implementations): `away_or_home` is `0` while the away side bats and `1` while
the home side bats, `score` is `[away, home]`, `currentPlayer` the two lineup
pointers. -/
structure GState where
  inning : Nat
  outs : Nat
  awayOrHome : Nat
  bases : List Nat
  score : List Nat
  currentPlayer : List Nat
  gameOn : Bool
  deriving DecidableEq

/-- `self.score[self.away_or_home] += runs`. -/
def addRuns (score : List Nat) (side runs : Nat) : List Nat :=
  score.set side (score.getD side 0 + runs)

/-- The outcome dispatch of `Game.handle_at_bat` in `baseball_sim.py`
(lines 104-109): `'OUT'` increments outs, `'BB'` calls `walker`, every other
string (including `'WALK'`, the label used by the module's own example
probabilities and by `Player.AVE`/`Player.bases`) falls through to
`hitter`. -/
def resolveOutcome (result : String) (g : GState) : GState :=
  if result = "OUT" then { g with outs := g.outs + 1 }
  else if result = "BB" then
    let w := walker g.bases
    { g with bases := w.1, score := addRuns g.score g.awayOrHome w.2 }
  else
    let w := hitter result g.bases
    { g with bases := w.1, score := addRuns g.score g.awayOrHome w.2 }

/-- The termination test of `Game.handle_at_bat` in `baseball_sim.py`
(lines 110-111): `(inning >= 9 and ((outs >= 3 and away_or_home == 0) or
away_or_home == 1) and score[0] < score[1]) or (inning >= 9 and outs >= 3 and
score[0] > score[1])`. -/
def endCheck (g : GState) : GState :=
  if (9 ≤ g.inning ∧ ((3 ≤ g.outs ∧ g.awayOrHome = 0) ∨ g.awayOrHome = 1)
        ∧ g.score.getD 0 0 < g.score.getD 1 0)
      ∨ (9 ≤ g.inning ∧ 3 ≤ g.outs ∧ g.score.getD 1 0 < g.score.getD 0 0) then
    { g with gameOn := false }
  else g

/-- The three-out block of `Game.handle_at_bat` in `baseball_sim.py`
(lines 112-118): advance the inning after the home half, zero the outs,
advance the just-batting side's lineup pointer by one modulo 9, flip the
batting side, clear the bases. -/
def resetIfOuts (g : GState) : GState :=
  if 3 ≤ g.outs then
    let g := if g.awayOrHome = 1 then { g with inning := g.inning + 1 } else g
    { g with outs := 0,
             currentPlayer := g.currentPlayer.set g.awayOrHome
               ((g.currentPlayer.getD g.awayOrHome 0 + 1) % 9),
             awayOrHome := (g.awayOrHome + 1) % 2,
             bases := [0, 0, 0] }
  else g

/-- `Game.handle_at_bat` of `baseball_sim.py` (lines 101-118) with the drawn
outcome as an argument: outcome dispatch, then the termination test, then the
three-out block. -/
def handle_at_bat (result : String) (g : GState) : GState :=
  resetIfOuts (endCheck (resolveOutcome result g))

/-- The outcome dispatch of `Game.handle_at_bat` in
`baseball_sim_with_scrape.py` (lines 120-125): here the walk branch tests
`result == 'WALK'`. -/
def resolveOutcomeWS (result : String) (g : GState) : GState :=
  if result = "OUT" then { g with outs := g.outs + 1 }
  else if result = "WALK" then
    let w := walkerWS g.bases
    { g with bases := w.1, score := addRuns g.score g.awayOrHome w.2 }
  else
    let w := hitterWS result g.bases
    { g with bases := w.1, score := addRuns g.score g.awayOrHome w.2 }

/-- The termination test of `Game.handle_at_bat` in
`baseball_sim_with_scrape.py` (lines 127-128): `inning >= 9 and
((outs >= 3 and away_or_home == 0) or away_or_home == 1) and
score[0] != score[1]`. -/
def endCheckWS (g : GState) : GState :=
  if 9 ≤ g.inning ∧ ((3 ≤ g.outs ∧ g.awayOrHome = 0) ∨ g.awayOrHome = 1)
      ∧ g.score.getD 0 0 ≠ g.score.getD 1 0 then
    { g with gameOn := false }
  else g

/-- The three-out block of `Game.handle_at_bat` in
`baseball_sim_with_scrape.py` (lines 129-134): like `resetIfOuts` but this
implementation never writes `current_player`. -/
def resetIfOutsWS (g : GState) : GState :=
  if 3 ≤ g.outs then
    let g := if g.awayOrHome = 1 then { g with inning := g.inning + 1 } else g
    { g with outs := 0,
             awayOrHome := (g.awayOrHome + 1) % 2,
             bases := [0, 0, 0] }
  else g

/-- `Game.handle_at_bat` of `baseball_sim_with_scrape.py` (lines 117-134)
with the drawn outcome as an argument. -/
def handle_at_batWS (result : String) (g : GState) : GState :=
  resetIfOutsWS (endCheckWS (resolveOutcomeWS result g))

/-- The freshly initialized game state (`Game.__init__` of
`baseball_sim_with_scrape.py`, and `Game.__init__` of `baseball_sim.py` on the
first construction, before its shared default containers are polluted). -/
def initGame : GState :=
  { inning := 1, outs := 0, awayOrHome := 0, bases := [0, 0, 0],
    score := [0, 0], currentPlayer := [0, 0], gameOn := true }

/-- The full (length `bases.length + 1`) list object as `Game.walker` of
`baseball_sim.py` leaves it just before the rebinding slice
`self.bases = self.bases[:3]`: these are the in-place mutations
(`append`, `+=`) seen by any other alias of the same list object. -/
def walkerCell (bases : List Nat) : List Nat :=
  let b := bases ++ [0]
  let b := b.set 0 (b.getD 0 0 + 1)
  forceStep (forceStep (forceStep b 0) 1) 2

/-- The contents of the three mutable default-argument containers of
`Game.__init__` in `baseball_sim.py` (`bases=[0, 0, 0]`, `score=[0, 0]`,
`current_player=[0, 0]`). Python evaluates default arguments once, so every
`Game(self.teams)` constructed by `Simulator.simulate` binds its attributes
to these same three list objects. -/
structure Cells where
  basesCell : List Nat
  scoreCell : List Nat
  cpCell : List Nat
  deriving DecidableEq

/-- The default containers as evaluated at module load. -/
def initCells : Cells := ⟨[0, 0, 0], [0, 0], [0, 0]⟩

/-- `Game.__init__` of `baseball_sim.py` called as `Game(self.teams)`: the
integer fields are fresh but the container fields are the shared default
objects. -/
def mkGame (c : Cells) : GState :=
  { inning := 1, outs := 0, awayOrHome := 0, bases := c.basesCell,
    score := c.scoreCell, currentPlayer := c.cpCell, gameOn := true }

/-- A running `Game` of `baseball_sim.py` together with the slice of the heap
it can mutate. `self.score` and `self.current_player` stay aliased to their
default cells for the whole game (no statement rebinds them before the end of
`play_game`), so those cells' contents are read off the game state when the
game ends; `self.bases` is rebound by the first slice, prepend or bases-reset
that touches it, so the bases cell and an aliased flag are tracked: while
aliased, `walker`'s in-place mutations write through to the cell. -/
structure HState where
  g : GState
  basesAliased : Bool
  basesCell : List Nat
  deriving DecidableEq

/-- One `handle_at_bat` of `baseball_sim.py` with heap tracking: a `'BB'`
drawn while `self.bases` is still aliased to the default cell mutates the
cell (`walkerCell`) and then rebinds (`self.bases = self.bases[:3]`); any
`hitter` call rebinds without mutating the cell; an `'OUT'` leaves the alias
intact unless it is the third out, whose reset `self.bases = [0, 0, 0]`
rebinds. -/
def hstepOutcome (result : String) (h : HState) : HState :=
  { g := handle_at_bat result h.g,
    basesAliased :=
      if result = "OUT" then h.basesAliased && decide (h.g.outs + 1 < 3)
      else false,
    basesCell :=
      if result = "BB" && h.basesAliased then walkerCell h.g.bases
      else h.basesCell }

/-- Inverse-CDF draw: `np.random.choice(index, p=probs)` driven by one
uniform variate `u` of the seeded global generator — pick the first label
whose cumulative probability exceeds `u`. A fixed seed fixes the sequence of
variates and hence the sequence of drawn outcomes. -/
def npChoice : List (String × ℚ) → ℚ → String
  | [], _ => ""
  | [(s, _)], _ => s
  | (s, p) :: rest, u => if u < p then s else npChoice rest (u - p)

/-- The two rosters bound to a `Game`: each side's nine outcome distributions
(`Team.players`, each holding `Player.probs`). -/
structure SimInput where
  awayPlayers : List (List (String × ℚ))
  homePlayers : List (List (String × ℚ))

/-- Lines 102-103 of `baseball_sim.py`: select
`self.teams[self.away_or_home].players[self.current_player[self.away_or_home]]`
and draw `player.at_bat()` with the next uniform variate. -/
def drawOutcome (inp : SimInput) (g : GState) (u : ℚ) : String :=
  let lineup := if g.awayOrHome = 0 then inp.awayPlayers else inp.homePlayers
  npChoice (lineup.getD (g.currentPlayer.getD g.awayOrHome 0) []) u

/-- One full `handle_at_bat` of `baseball_sim.py`: draw, then apply. -/
def hstep (inp : SimInput) (h : HState) (u : ℚ) : HState :=
  hstepOutcome (drawOutcome inp h.g u) h

/-- The `while self.game_on:` loop of `Game.play_game` (lines 121-122),
driven by the stream of uniform variates; if the stream runs out first, the
loop is left unfinished with `gameOn` still true. -/
def runGame (inp : SimInput) : List ℚ → HState → HState × List ℚ
  | [], h => (h, [])
  | u :: us, h =>
    if h.g.gameOn then runGame inp us (hstep inp h u) else (h, u :: us)

/-- `Game.play_game` of `baseball_sim.py` (lines 120-136): run the loop, read
off `final_score` and `winner`, rebind the attributes for reuse. The returned
`Cells` are what the three default containers hold afterwards: the score cell
keeps the finished game's final score (the reset `self.score = [0, 0]` rebinds
the attribute without touching the shared object), the `current_player` cell —
which `play_game` never resets at all — keeps the final pointers, and the
bases cell holds whatever in-place mutations reached it before `self.bases`
was first rebound. -/
def play_game (inp : SimInput) (us : List ℚ) (c : Cells) :
    (List Nat × Nat) × Cells × List ℚ :=
  let r := runGame inp us ⟨mkGame c, true, c.basesCell⟩
  let h := r.1
  let winner := if h.g.score.getD 0 0 < h.g.score.getD 1 0 then 1 else 0
  ((h.g.score, winner), ⟨h.basesCell, h.g.score, h.g.currentPlayer⟩, r.2)

/-- `Simulator.simulate` of `baseball_sim.py` (lines 148-157): `its` times,
construct `Game(self.teams)` — sharing the default containers — play it and
log `(final_score, winner)`. -/
def simulate (inp : SimInput) : Nat → Cells → List ℚ → List (List Nat × Nat)
  | 0, _, _ => []
  | n + 1, c, us =>
    let r := play_game inp us c
    r.1 :: simulate inp n r.2.1 r.2.2

/-- A roster slot that homers on `u < 1/2` and is out otherwise. -/
def hrOutProbs : List (String × ℚ) := [("HR", mkRat 1 2), ("OUT", mkRat 1 2)]

/-- Two identical all-`hrOutProbs` rosters. -/
def inpC2 : SimInput :=
  ⟨List.replicate 9 hrOutProbs, List.replicate 9 hrOutProbs⟩

/-- Variates for one batch game: a home run for the away leadoff batter, then
51 straight outs (three per half-inning through the top of the ninth, where
the away side leads 1-0 and the game ends). -/
def usGame1 : List ℚ := mkRat 1 4 :: List.replicate 51 (mkRat 3 4)

/-- `Player.OBP` of `baseball_sim.py` (lines 18-20): the division
`len(nonouts) / len(self.stats)` has no guard, so `none` models the
`ZeroDivisionError` Python raises on an empty history. -/
def OBP (stats : List String) : Option ℚ :=
  if stats.length = 0 then none
  else some (((stats.filter (fun ab => ab != "OUT")).length : ℚ) / stats.length)

/-- `Player.AVE` of `baseball_sim.py` (lines 23-26): appearances exclude
walks, hits additionally exclude outs; the unguarded division raises
(`none`) when every recorded at-bat is a `'WALK'`. -/
def AVE (stats : List String) : Option ℚ :=
  let apps := stats.filter (fun ab => ab != "WALK")
  let hits := apps.filter (fun ab => ab != "OUT")
  if apps.length = 0 then none
  else some ((hits.length : ℚ) / apps.length)

/-- `Player.bases` of `baseball_sim.py` (lines 29-39) — bases credited per
outcome label (also the `.get(hit_type, 0)` dictionary of
`baseball_sim_with_scrape.py`, lines 62-69). -/
def hitBases (hit_type : String) : Nat :=
  if hit_type = "WALK" ∨ hit_type = "1B" then 1
  else if hit_type = "2B" then 2
  else if hit_type = "3B" then 3
  else if hit_type = "HR" then 4
  else 0

/-- `Player.slugging` of `baseball_sim.py` (lines 42-43), unguarded. -/
def slugging (stats : List String) : Option ℚ :=
  if stats.length = 0 then none
  else some (((stats.map hitBases).sum : ℚ) / stats.length)

/-- `Player.OBP` of `baseball_sim_with_scrape.py` (lines 53-55):
`... if self.stats else 0`. -/
def OBP_ws (stats : List String) : ℚ :=
  if stats.length = 0 then 0
  else ((stats.filter (fun ab => ab != "OUT")).length : ℚ) / stats.length

/-- `Player.AVE` of `baseball_sim_with_scrape.py` (lines 57-60):
`... if apps else 0`. -/
def AVE_ws (stats : List String) : ℚ :=
  let apps := stats.filter (fun ab => ab != "WALK")
  let hits := apps.filter (fun ab => ab != "OUT")
  if apps.length = 0 then 0
  else (hits.length : ℚ) / apps.length

/-- `Player.slugging` of `baseball_sim_with_scrape.py` (lines 71-72):
`... if self.stats else 0`. -/
def slugging_ws (stats : List String) : ℚ :=
  if stats.length = 0 then 0
  else ((stats.map hitBases).sum : ℚ) / stats.length

/-- Top of the ninth, two out, the away side batting and leading 1-0. -/
def topNinthAwayLeads : GState :=
  { inning := 9, outs := 2, awayOrHome := 0, bases := [0, 0, 0],
    score := [1, 0], currentPlayer := [0, 0], gameOn := true }

/-- Bottom of the ninth, nobody out, the home side batting and trailing
0-1. -/
def bottomNinthHomeTrails : GState :=
  { inning := 9, outs := 0, awayOrHome := 1, bases := [0, 0, 0],
    score := [1, 0], currentPlayer := [0, 0], gameOn := true }

/-- A fresh first inning with a runner on first base. -/
def runnerOnFirst : GState := { initGame with bases := [1, 0, 0] }

/-- The record `{"final_score": ..., "winner": ...}` read off the exited
loop state by `Game.play_game` (lines 123-124 and 133-136). -/
def gameResult (h : HState) : List Nat × Nat :=
  (h.g.score, if h.g.score.getD 0 0 < h.g.score.getD 1 0 then 1 else 0)

/-- The default-argument cells as `Game.play_game` leaves them behind (see
`play_game`). -/
def cellsAfter (h : HState) : Cells :=
  ⟨h.basesCell, h.g.score, h.g.currentPlayer⟩

/-- A terminating execution of the `while self.game_on:` loop of
`Game.play_game`, as a small-step relation: from heap state `h` with variate
stream `us`, the loop exits in state `h'` leaving the unconsumed stream
`us'`. -/
inductive PlayRel (inp : SimInput) : HState → List ℚ → HState → List ℚ → Prop
  | exit (h : HState) (us : List ℚ) :
      h.g.gameOn = false → PlayRel inp h us h us
  | more (h : HState) (u : ℚ) (us : List ℚ) (h' : HState) (us' : List ℚ) :
      h.g.gameOn = true → PlayRel inp (hstep inp h u) us h' us' →
      PlayRel inp h (u :: us) h' us'

/-- An execution of the `for i in range(its):` loop of `Simulator.simulate`,
as a relation: `n` games from default-cell contents `c` and variate stream
`us` produce the given result log. -/
inductive BatchRel (inp : SimInput) :
    Nat → Cells → List ℚ → List (List Nat × Nat) → Prop
  | nil (c : Cells) (us : List ℚ) : BatchRel inp 0 c us []
  | cons (n : Nat) (c : Cells) (us : List ℚ) (h' : HState) (us' : List ℚ)
      (log : List (List Nat × Nat)) :
      PlayRel inp ⟨mkGame c, true, c.basesCell⟩ us h' us' →
      BatchRel inp n (cellsAfter h') us' log →
      BatchRel inp (n + 1) c us (gameResult h' :: log)


/-! ## Helper lemmas -/

theorem resolveOutcome_currentPlayer (o : String) (g : GState) :
    (resolveOutcome o g).currentPlayer = g.currentPlayer := by
  unfold resolveOutcome; split_ifs <;> rfl

theorem resolveOutcome_awayOrHome (o : String) (g : GState) :
    (resolveOutcome o g).awayOrHome = g.awayOrHome := by
  unfold resolveOutcome; split_ifs <;> rfl

theorem resolveOutcomeWS_currentPlayer (o : String) (g : GState) :
    (resolveOutcomeWS o g).currentPlayer = g.currentPlayer := by
  unfold resolveOutcomeWS; split_ifs <;> rfl

theorem endCheck_currentPlayer (g : GState) :
    (endCheck g).currentPlayer = g.currentPlayer := by
  unfold endCheck; split_ifs <;> rfl

theorem endCheck_outs (g : GState) : (endCheck g).outs = g.outs := by
  unfold endCheck; split_ifs <;> rfl

theorem endCheck_awayOrHome (g : GState) :
    (endCheck g).awayOrHome = g.awayOrHome := by
  unfold endCheck; split_ifs <;> rfl

theorem endCheckWS_currentPlayer (g : GState) :
    (endCheckWS g).currentPlayer = g.currentPlayer := by
  unfold endCheckWS; split_ifs <;> rfl

theorem resetIfOuts_currentPlayer (g : GState) :
    (resetIfOuts g).currentPlayer =
      (if 3 ≤ g.outs then
        g.currentPlayer.set g.awayOrHome
          ((g.currentPlayer.getD g.awayOrHome 0 + 1) % 9)
      else g.currentPlayer) := by
  unfold resetIfOuts; split_ifs <;> rfl

theorem resetIfOutsWS_currentPlayer (g : GState) :
    (resetIfOutsWS g).currentPlayer = g.currentPlayer := by
  unfold resetIfOutsWS; split_ifs <;> rfl

/-- One all-home-run at-bat in the top of the first: the score ticks up by
one and nothing else changes. -/
theorem handle_at_bat_hr_step (s : Nat) :
    handle_at_bat "HR"
      { inning := 1, outs := 0, awayOrHome := 0, bases := [0, 0, 0],
        score := [s, 0], currentPlayer := [0, 0], gameOn := true }
    = { inning := 1, outs := 0, awayOrHome := 0, bases := [0, 0, 0],
        score := [s + 1, 0], currentPlayer := [0, 0], gameOn := true } := rfl

/-- All-home-run play iterated from the fresh state: after `n` at-bats the
game is still on, still in the top of the first, with the away side on `n`
runs. -/
theorem iterate_hr_state (n : Nat) :
    (handle_at_bat "HR")^[n] initGame
      = { inning := 1, outs := 0, awayOrHome := 0, bases := [0, 0, 0],
          score := [n, 0], currentPlayer := [0, 0], gameOn := true } := by
  induction n with
  | zero => rfl
  | succ k ih => rw [Function.iterate_succ_apply', ih, handle_at_bat_hr_step]

/-- The loop relation `PlayRel` is deterministic: a game run from one heap
state with one variate stream exits in a unique state with a unique
remainder. -/
theorem playRel_deterministic (inp : SimInput) :
    ∀ {h : HState} {us : List ℚ} {h1 : HState} {us1 : List ℚ} {h2 : HState}
      {us2 : List ℚ}, PlayRel inp h us h1 us1 → PlayRel inp h us h2 us2 →
      h1 = h2 ∧ us1 = us2 := by
  intro h us h1 us1 h2 us2 r1
  induction r1 generalizing h2 us2 with
  | exit h us hoff =>
    intro r2
    cases r2 with
    | exit _ _ _ => exact ⟨rfl, rfl⟩
    | more _ _ _ _ _ hon _ => rw [hoff] at hon; cases hon
  | more h u us h' us' hon r ih =>
    intro r2
    cases r2 with
    | exit _ _ hoff => rw [hoff] at hon; cases hon
    | more _ _ _ _ _ _ r2t => exact ih r2t

/-- The functional loop `runGame` realizes the relation `PlayRel` whenever it
exits with the game over. -/
theorem playRel_of_runGame (inp : SimInput) :
    ∀ (us : List ℚ) (h : HState),
      (runGame inp us h).1.g.gameOn = false →
      PlayRel inp h us (runGame inp us h).1 (runGame inp us h).2 := by
  intro us
  induction us with
  | nil =>
    intro h hoff
    exact PlayRel.exit h [] hoff
  | cons u us ih =>
    intro h hoff
    by_cases hon : h.g.gameOn
    · have hr : runGame inp (u :: us) h = runGame inp us (hstep inp h u) := by
        simp [runGame, hon]
      rw [hr] at hoff ⊢
      exact PlayRel.more h u us _ _ hon (ih (hstep inp h u) hoff)
    · have hoff0 : h.g.gameOn = false := by
        cases hg : h.g.gameOn
        · rfl
        · exact absurd hg hon
      have hr : runGame inp (u :: us) h = (h, u :: us) := by
        simp [runGame, hoff0]
      rw [hr]
      exact PlayRel.exit h (u :: us) hoff0

/-! ## The claims -/

/-- C1: a `WALK` outcome should put the batter on first and force-advance.
The force-advance algorithm (`walker`/`walkerWS`) does exactly that — bases
empty gives one runner on first and no run, bases loaded scores one and stays
loaded, unforced runners on second and third hold — but `baseball_sim.py`
dispatches the walk branch on `'BB'` while its own outcome vocabulary is
`'WALK'`, so there a `WALK` falls through to `hitter` and is a perfect no-op:
the batter never reaches first. `baseball_sim_with_scrape.py` dispatches on
`'WALK'` and behaves as claimed. -/
theorem C1_walk_no_op_in_sim :
    handle_at_bat "WALK" initGame = initGame
    ∧ handle_at_batWS "WALK" initGame = { initGame with bases := [1, 0, 0] }
    ∧ walkerWS [1, 1, 1] = ([1, 1, 1], 1)
    ∧ walkerWS [0, 1, 1] = ([1, 1, 1], 0) := by decide

/-- C2: the claim that every trial starts from score `(0, 0)` with fresh
containers fails in `baseball_sim.py`: the default containers of
`Game.__init__` are shared, so after a first batch game ending 1-0 for the
away side, the second `Game(self.teams)` starts with score `[1, 0]` (the
previous final score) and lineup pointers `[0, 8]`. -/
theorem C2_second_game_inherits_score :
    (play_game inpC2 usGame1 initCells).1 = ([1, 0], 0)
    ∧ (mkGame (play_game inpC2 usGame1 initCells).2.1).score = [1, 0]
    ∧ (mkGame (play_game inpC2 usGame1 initCells).2.1).currentPlayer = [0, 8]
    ∧ ([1, 0] : List Nat) ≠ [0, 0] := by decide

/-- C3: the claim that the game never completes at the end of the AWAY half
fails in both implementations: a third away out in the ninth with the away
side leading 1-0 ends the game at once, and `baseball_sim_with_scrape.py`
even ends the game mid-half (one out) while the HOME side is batting and
trailing. -/
theorem C3_completes_on_away_half :
    (handle_at_bat "OUT" topNinthAwayLeads).gameOn = false
    ∧ (handle_at_batWS "OUT" topNinthAwayLeads).gameOn = false
    ∧ (handle_at_batWS "OUT" bottomNinthHomeTrails).gameOn = false
    ∧ (handle_at_batWS "OUT" bottomNinthHomeTrails).outs = 1 := by decide

/-- C4 counterexample: in `baseball_sim.py` a single with a runner on second
scores that runner (result `([1, 0, 0], 1)`), where the claim demands he stop
at third with no run (`([1, 0, 1], 0)`). -/
theorem C4_runner_on_second_scores :
    hitter "1B" [0, 1, 0] = ([1, 0, 0], 1)
    ∧ (([1, 0, 0], 1) : List Nat × Nat) ≠ ([1, 0, 1], 0) := by decide

/-- C4 amended: on a single, `baseball_sim.py` advances every runner two
bases (batter to first, first to third, second and third score) while
`baseball_sim_with_scrape.py` advances every runner exactly one base as the
claim states. -/
theorem C4_single_advancement :
    ∀ b0 b1 b2 : Nat,
      hitter "1B" [b0, b1, b2] = ([1, 0, b0], b1 + b2)
      ∧ hitterWS "1B" [b0, b1, b2] = ([1, b0, b1], b2) := by
  intro b0 b1 b2
  constructor <;> simp [hitter, hitterWS]

/-- C5 counterexample: an at-bat that resolves a single leaves the batting
side's lineup pointer untouched in `baseball_sim.py` (`[0, 0]`, not the
claimed `[1, 0]`). -/
theorem C5_pointer_unmoved_by_at_bat :
    (handle_at_bat "1B" initGame).currentPlayer = [0, 0]
    ∧ ([0, 0] : List Nat) ≠ [1, 0] := by decide

/-- C5 amended: `baseball_sim.py` advances the batting side's lineup pointer
by one modulo 9 exactly when the at-bat brings the outs to three (the end of
the half-inning) — so one batter takes every at-bat of a half-inning — and
`baseball_sim_with_scrape.py` never advances the pointer at all. -/
theorem C5_pointer_only_on_third_out (o : String) (g : GState) :
    (handle_at_bat o g).currentPlayer =
      (if 3 ≤ (resolveOutcome o g).outs then
        g.currentPlayer.set g.awayOrHome
          ((g.currentPlayer.getD g.awayOrHome 0 + 1) % 9)
      else g.currentPlayer)
    ∧ (handle_at_batWS o g).currentPlayer = g.currentPlayer := by
  constructor
  · show (resetIfOuts (endCheck (resolveOutcome o g))).currentPlayer = _
    rw [resetIfOuts_currentPlayer, endCheck_outs, endCheck_currentPlayer,
      endCheck_awayOrHome, resolveOutcome_currentPlayer,
      resolveOutcome_awayOrHome]
  · show (resetIfOutsWS (endCheckWS (resolveOutcomeWS o g))).currentPlayer = _
    rw [resetIfOutsWS_currentPlayer, endCheckWS_currentPlayer,
      resolveOutcomeWS_currentPlayer]

/-- C6: `baseball_sim.py` scores a home run as claimed — one plus the
occupied bases, clearing them — but `baseball_sim_with_scrape.py` truncates
with `[:4]` before summing, so a home run with a runner on first scores only
1 and the runner vanishes. -/
theorem C6_home_run_scoring :
    (∀ b0 b1 b2 : Nat,
      hitter "HR" [b0, b1, b2] = ([0, 0, 0], 1 + (b0 + b1 + b2)))
    ∧ hitterWS "HR" [1, 0, 0] = ([0, 0, 0], 1)
    ∧ (1 : Nat) ≠ 1 + 1 := by
  refine ⟨fun b0 b1 b2 => ?_, by decide, by decide⟩
  simp [hitter]
  omega

/-- C7: the one-outcome accounting invariant fails at both known slips: a
`'WALK'` in `baseball_sim.py` drops the batter (0 runners + 1 batter become 0
runners + 0 runs), and a home run with a runner on first in
`baseball_sim_with_scrape.py` drops the runner (1 + 1 become 0 + 1). A plain
`'OUT'` does behave as claimed: outs up by one, bases and score unchanged. -/
theorem C7_outcome_accounting :
    ¬ (initGame.bases.sum + 1
        = (resolveOutcome "WALK" initGame).bases.sum
          + ((resolveOutcome "WALK" initGame).score.sum - initGame.score.sum))
    ∧ ¬ (runnerOnFirst.bases.sum + 1
        = (resolveOutcomeWS "HR" runnerOnFirst).bases.sum
          + ((resolveOutcomeWS "HR" runnerOnFirst).score.sum
              - runnerOnFirst.score.sum))
    ∧ (resolveOutcome "OUT" runnerOnFirst).outs = runnerOnFirst.outs + 1
    ∧ (resolveOutcome "OUT" runnerOnFirst).bases = runnerOnFirst.bases
    ∧ (resolveOutcome "OUT" runnerOnFirst).score = runnerOnFirst.score := by
  decide

/-- C8: on a zero denominator, `baseball_sim_with_scrape.py` returns 0 as
claimed, but `baseball_sim.py` divides unconditionally and raises
`ZeroDivisionError` (modelled as `none`): OBP and slugging on an empty
history, batting average on an all-walk history. -/
theorem C8_zero_denominator_behavior :
    OBP [] = none ∧ slugging [] = none ∧ AVE ["WALK"] = none
    ∧ OBP_ws [] = 0 ∧ slugging_ws [] = 0 ∧ AVE_ws ["WALK"] = 0 := by decide

/-- C9 counterexample: with every at-bat a home run, after 200 at-bats the
game is still running, still in the top of the first — the home side never
bats, so the game cannot end at the end of the first HOME half of inning
1. -/
theorem C9_still_top_first_after_200 :
    ((handle_at_bat "HR")^[200] initGame).gameOn = true
    ∧ ((handle_at_bat "HR")^[200] initGame).awayOrHome = 0
    ∧ ((handle_at_bat "HR")^[200] initGame).inning = 1 := by
  rw [iterate_hr_state]
  exact ⟨rfl, rfl, rfl⟩

/-- C9 amended: with `{HOME_RUN: 1.0}` for every batter the simulation never
terminates — no out ever occurs, so the top of the first never completes:
after any number of at-bats the game is still on in the top of the first with
the away score equal to the number of at-bats. -/
theorem C9_all_home_runs_no_termination :
    ∀ n : Nat, ((handle_at_bat "HR")^[n] initGame).gameOn = true
      ∧ ((handle_at_bat "HR")^[n] initGame).awayOrHome = 0
      ∧ ((handle_at_bat "HR")^[n] initGame).score = [n, 0] := by
  intro n
  rw [iterate_hr_state]
  exact ⟨rfl, rfl, rfl⟩

/-- C10: the batch is reproducible — two executions of
`Simulator.simulate` with the same rosters, the same seed-determined variate
stream, the same game count and the same initial default-cell contents
produce the same result log. -/
theorem C10_batch_reproducible (inp : SimInput) (n : Nat) (c : Cells)
    (us : List ℚ) (log1 log2 : List (List Nat × Nat))
    (r1 : BatchRel inp n c us log1) (r2 : BatchRel inp n c us log2) :
    log1 = log2 := by
  induction r1 generalizing log2 with
  | nil _ _ => cases r2; rfl
  | cons n c us h' us' log rp rb ih =>
    cases r2 with
    | cons _ _ _ h2 us2 logt rp2 rb2 =>
      obtain ⟨hh, hu⟩ := playRel_deterministic inp rp rp2
      subst hh; subst hu
      rw [ih logt rb2]

/-- C10 witness: a one-game batch (the 52-at-bat 1-0 away win) run twice
produces the same log. -/
theorem C10_batch_reproducible_witness :
    ([([1, 0], 0)] : List (List Nat × Nat)) = [([1, 0], 0)] := by
  have hrun : (runGame inpC2 usGame1
      ⟨mkGame initCells, true, initCells.basesCell⟩).1.g.gameOn = false := by
    decide
  have hp := playRel_of_runGame inpC2 usGame1
    ⟨mkGame initCells, true, initCells.basesCell⟩ hrun
  have hb : BatchRel inpC2 1 initCells usGame1
      (gameResult (runGame inpC2 usGame1
        ⟨mkGame initCells, true, initCells.basesCell⟩).1 :: []) :=
    BatchRel.cons 0 initCells usGame1 _ _ [] hp (BatchRel.nil _ _)
  have hres : gameResult (runGame inpC2 usGame1
      ⟨mkGame initCells, true, initCells.basesCell⟩).1 = ([1, 0], 0) := by
    decide
  have hb2 : BatchRel inpC2 1 initCells usGame1 [([1, 0], 0)] := hres ▸ hb
  exact C10_batch_reproducible inpC2 1 initCells usGame1 _ _ hb2 hb2
